import Mathlib

/-!
# Verification of the deep-credit-azure run-lifecycle service

Shallow embedding of the Flask handlers and the Cosmos DB wrapper of the
repository.  Two handler variants exist in the source and both are
modelled where a claim cites both:

* `AppMain` embeds `src/app/main.py` (signature-verifying webhook,
  `/start` returning 202 with `status=running`);
* `Main` embeds `src/main.py` (shared-secret token webhook, `/start`
  returning the Flask default 200 with `status=started`);
* `Db` embeds `src/app/db.py` (`CosmosDBManager`).

Python dictionaries are modelled as insertion-ordered association lists
(`d[k] = v` replaces the value in place when the key exists, otherwise
appends; `d.update(u)` folds `d[k] = v` over `u`), JSON values as the
inductive `Json`, wall-clock time as an explicit `Nat` tick, and the
external OpenAI calls as explicit `Except` parameters.  A raised Python
exception inside a handler's `try` block is modelled by the branch that
the corresponding `except` clause takes (an HTTP 500 response).
-/

namespace DeepCredit

/-- A Python/JSON value as it flows through the handlers.  `null` models
Python `None`. -/
inductive Json where
  | null : Json
  | bool (b : Bool) : Json
  | num  (n : Int) : Json
  | str  (s : String) : Json
  | arr  (xs : List Json) : Json
  | obj  (fields : List (String × Json)) : Json

/-- Structural equality on `Json`, modelling Python `==` on parsed JSON
values. -/
def Json.eqb : Json → Json → Bool
  | .null, .null => true
  | .bool a, .bool b => a == b
  | .num a, .num b => a == b
  | .str a, .str b => a == b
  | .arr [], .arr [] => true
  | .arr (x :: xs), .arr (y :: ys) => Json.eqb x y && Json.eqb (.arr xs) (.arr ys)
  | .obj [], .obj [] => true
  | .obj ((k, v) :: fs), .obj ((k', v') :: fs') =>
      k == k' && Json.eqb v v' && Json.eqb (.obj fs) (.obj fs')
  | _, _ => false

/-- Python truthiness (`if x:`) for the values a handler inspects. -/
def Json.truthy : Json → Bool
  | .null => false
  | .bool b => b
  | .num n => n != 0
  | .str s => s != ""
  | .arr xs => !xs.isEmpty
  | .obj fs => !fs.isEmpty

/-! ## Association lists standing for Python dicts -/

/-- `d.get(k)` / `d[k]` read on an insertion-ordered dict, with an
explicit key-equality function. -/
def alookup (eq : κ → κ → Bool) : List (κ × α) → κ → Option α
  | [], _ => none
  | (k', v) :: tl, k => if eq k' k then some v else alookup eq tl k

/-- `d[k] = v`: replace the value in place when the key exists (the
original key object is kept, as in Python), otherwise append. -/
def aset (eq : κ → κ → Bool) : List (κ × α) → κ → α → List (κ × α)
  | [], k, v => [(k, v)]
  | (k', v') :: tl, k, v =>
      if eq k' k then (k', v) :: tl else (k', v') :: aset eq tl k v

/-- `d.update(u)`: apply `d[k] = v` for every pair of `u` in order. -/
def aupd (eq : κ → κ → Bool) (d u : List (κ × α)) : List (κ × α) :=
  u.foldl (fun acc p => aset eq acc p.1 p.2) d

/-- A stored record: a Python dict with string keys and JSON values. -/
abbrev Dict : Type := List (String × Json)

/-- The in-memory fallback store `response_data`: a dict keyed by the
`run_id` value (a string when written by `/start`, but webhook payloads
may supply any JSON value). -/
abbrev Store : Type := List (Json × Dict)

def dget (d : Dict) (k : String) : Option Json := alookup (· == ·) d k

def dset (d : Dict) (k : String) (v : Json) : Dict := aset (· == ·) d k v

def dupd (d u : Dict) : Dict := aupd (· == ·) d u

def sget (s : Store) (rid : Json) : Option Dict := alookup Json.eqb s rid

def sset (s : Store) (rid : Json) (rec : Dict) : Store := aset Json.eqb s rid rec

/-- `datetime.now().isoformat()` at abstract wall-clock tick `now`. -/
def timeJson (now : Nat) : Json := .str (toString now)

/-! ## Store helpers shared verbatim by `src/app/main.py` (lines 22-60)
and `src/main.py` (lines 35-78), modelled in the in-memory configuration
(`db_manager = None`, i.e. no `COSMOS_CONN`). -/

/-- `store_response_data`: in-memory branch `response_data[run_id] = data`. -/
def store_response_data (s : Store) (rid : Json) (d : Dict) : Store :=
  sset s rid d

/-- `get_response_data`: in-memory branch `response_data.get(run_id)`. -/
def get_response_data (s : Store) (rid : Json) : Option Dict :=
  sget s rid

/-- `update_response_data`: in-memory branch — merge `updates` into the
existing record and return `True`, or return `False` when `run_id` is
absent.  The returned `Bool` is the function's Python return value. -/
def update_response_data (s : Store) (rid : Json) (u : Dict) : Store × Bool :=
  match sget s rid with
  | some rec => (sset s rid (dupd rec u), true)
  | none => (s, false)

/-! ## `src/app/db.py` — the Cosmos DB wrapper -/

namespace Db

/-- The outcome of the `container.query_items` call inside
`CosmosDBManager.get_response` (src/app/db.py lines 123-127): the list
of matching documents, or a raised `CosmosHttpResponseError`, or any
other raised exception. -/
inductive QueryOutcome where
  | ok (items : List Dict)
  | httpError (msg : String)
  | otherError (msg : String)

/-- `CosmosDBManager.get_response` (src/app/db.py lines 105-141):
returns the first matching document when the query yields items, `None`
when it yields none, and `None` again when the query raises — both
`except` clauses also return `None`. -/
def get_response : QueryOutcome → Option Dict
  | .ok items => items.head?
  | .httpError _ => none
  | .otherError _ => none

end Db

/-! ## External-call outcomes passed to the handlers as parameters -/

/-- Modelled from the spec: `responses.start_research` is called by both
`/start` handlers but is absent from `src/app/responses.py`; per spec
§4.2, Provider Gateway `submit` returns a provider-assigned `run_id`
and an initial status.  The fields mirror the attributes the handlers
read from the returned response object (`id`, `status`, `model`). -/
structure ProviderResp where
  id : String
  status : String
  model : String

/-- The OpenAI response object returned by
`client.responses.retrieve(run_id)` in the `/status` handlers; absent
attributes read via `getattr(·, ·, None)` are `Json.null`. -/
structure PollResp where
  id : String
  status : String
  model : String
  output_text : Json
  error : Json

/-- The verified event produced by `client.webhooks.unwrap` in
`src/app/main.py` (lines 254-273); the handler serialises exactly the
fields below into its payload dict. -/
structure VerifiedEvent where
  id : String
  object : String
  created_at : Int
  type : String
  dataId : String

/-! ## Handler result records -/

/-- Observable outcome of a `/start` request: HTTP status code, the
`run_id` echoed in the response body (absent on error), and the store
after the request. -/
structure StartResult where
  status : Nat
  run_id : Option String
  store : Store

/-- Observable outcome of a `/status/{run_id}` request.  `polled` records
whether the handler reached the `client.responses.retrieve` call;
`bodyStatus` is the status value placed in the JSON body
(`local_status` in `src/app/main.py`, `status` in `src/main.py`). -/
structure StatusResult where
  status : Nat
  polled : Bool
  bodyStatus : Option Json
  store : Store

/-- Observable outcome of a `/webhook` request.  `updateOk` is the
return value of `update_response_data`, which both handlers compute and
then discard (`none` when the call is never reached). -/
structure WebhookResult where
  status : Nat
  updateOk : Option Bool
  store : Store

/-! ## Python membership / subscription helpers -/

/-- Substring test backing Python `needle in hay` for strings. -/
def strContains (hay needle : String) : Bool :=
  needle == "" || (hay.splitOn needle).length ≥ 2

/-- Python `key in x` as used by the `/start` validation; `.error`
models a raised `TypeError` (`in` on a non-container). -/
def pyIn (key : String) : Json → Except Unit Bool
  | .obj fields => .ok (dget fields key).isSome
  | .arr xs => .ok (xs.any (Json.eqb (.str key)))
  | .str s => .ok (strContains s key)
  | _ => .error ()

/-- Python `x[key]` with a string key; `.error` models the raised
`KeyError` / `TypeError`. -/
def pyGetItem (j : Json) (key : String) : Except Unit Json :=
  match j with
  | .obj fields =>
    match dget fields key with
    | some v => .ok v
    | none => .error ()
  | _ => .error ()

/-! ## `src/app/main.py` — the package variant of the Flask app -/

namespace AppMain

/-- `/start` (src/app/main.py lines 110-156).  `body` is
`request.get_json()` (`none` when no JSON body is present), `provider`
is the outcome of the `responses.start_research` call, `now` the
wall-clock tick.  Validation: `if not data or 'query' not in data:
return ..., 400`; any raised exception is converted to a 500 by the
enclosing `except`. -/
def start (body : Option Json) (provider : Except String ProviderResp)
    (s : Store) (now : Nat) : StartResult :=
  match body with
  | none => ⟨400, none, s⟩
  | some data =>
    if !data.truthy then ⟨400, none, s⟩
    else
      match pyIn "query" data with
      | .error _ => ⟨500, none, s⟩
      | .ok false => ⟨400, none, s⟩
      | .ok true =>
        match pyGetItem data "query" with
        | .error _ => ⟨500, none, s⟩
        | .ok query =>
          match provider with
          | .error _ => ⟨500, none, s⟩
          | .ok r =>
            let rec0 : Dict :=
              [("status", .str "running"), ("query", query),
               ("started_at", timeJson now), ("response", .null),
               ("openai_status", .str r.status)]
            ⟨202, some r.id, store_response_data s (.str r.id) rec0⟩

/-- `/status/<run_id>` (src/app/main.py lines 158-222).  The guard
`if not local_data` returns 404 both when the lookup yields `None` and
when it yields a falsy (empty) dict; past it the handler always
proceeds to poll OpenAI, `poll` being the outcome of
`client.responses.retrieve(run_id)`.  (The completion block at source
lines 184-192 is mis-indented as written — a Python syntax error — and
is modelled per its evident intent: the `updates.update` is guarded by
`openai_status == "completed" and output_text`.) -/
def get_status (s : Store) (rid : String) (poll : Except String PollResp)
    (now : Nat) : StatusResult :=
  match get_response_data s (.str rid) with
  | none => ⟨404, false, none, s⟩
  | some local_data =>
    if local_data.isEmpty then ⟨404, false, none, s⟩
    else
    match poll with
    | .error _ =>
      ⟨200, true, some ((dget local_data "status").getD (.str "unknown")), s⟩
    | .ok p =>
      let updates : Dict :=
        [("openai_status", .str p.status), ("last_checked", timeJson now)]
      let updates :=
        if p.status == "completed" && p.output_text.truthy then
          dupd updates
            [("status", .str "completed"), ("response", p.output_text),
             ("completed_at", timeJson now)]
        else updates
      let s' := (update_response_data s (.str rid) updates).1
      match get_response_data s' (.str rid) with
      | none => ⟨500, true, none, s'⟩
      | some ud => ⟨200, true, some ((dget ud "status").getD (.str "unknown")), s'⟩

/-- The `run_id` / `response_text` extraction of the webhook handler
(src/app/main.py lines 289-305), duck-typed over the payload shape.
Returns the pair (`run_id`, `response_text`) with `Json.null` for
Python `None`; `.error` models a raised exception (`AttributeError` on
`payload["response"].get` when that value is not a dict, `KeyError` /
`TypeError` while digging `choices[0]["message"]["content"]`), which
the enclosing `except` turns into a 500. -/
def extract (p : Json) : Except Unit (Json × Json) :=
  match p with
  | .obj fields =>
    match dget fields "response" with
    | some (.obj rf) =>
      let rid := (dget rf "id").getD .null
      match dget rf "choices" with
      | none => .ok (rid, .null)
      | some (.arr []) => .ok (rid, .null)
      | some (.arr (c :: _)) =>
        (match c with
         | .obj cf =>
           match dget cf "message" with
           | some (.obj mf) =>
             match dget mf "content" with
             | some content => .ok (rid, content)
             | none => .error ()
           | _ => .error ()
         | _ => .error ())
      | some (.str s) => if s.length > 0 then .error () else .ok (rid, .null)
      | some (.obj o) => if o.length > 0 then .error () else .ok (rid, .null)
      | some _ => .error ()
    | some _ => .error ()
    | none =>
      match dget fields "id" with
      | some rid =>
        let t1 := (dget fields "output_text").getD .null
        let t2 := (dget fields "content").getD (.str "Webhook received")
        .ok (rid, if t1.truthy then t1 else t2)
      | none => .ok (.null, .null)
  | _ => .ok (.null, .null)

/-- `/webhook` (src/app/main.py lines 224-325).  When a webhook secret
is configured and a `webhook-signature` header is present, the handler
attempts `client.webhooks.unwrap` (outcome `verify`); on verification
failure it *continues with the unverified raw payload*, and with no
signature header or no secret it uses the raw payload directly.  After
extraction, a falsy `run_id` yields 400; otherwise the completion
updates are merged via `update_response_data`, whose return value is
discarded, and the handler returns 200. -/
def webhook (secret : Option String) (sigHeader : Option String)
    (verify : Except String VerifiedEvent) (rawBody : Option Json)
    (s : Store) (now : Nat) : WebhookResult :=
  let payload : Option Json :=
    match secret with
    | some _ =>
      match sigHeader with
      | some _ =>
        match verify with
        | .ok e =>
          some (.obj [("id", .str e.id), ("object", .str e.object),
            ("created_at", .num e.created_at), ("type", .str e.type),
            ("data", .obj [("id", .str e.dataId)])])
        | .error _ => rawBody
      | none => rawBody
    | none => rawBody
  match payload with
  | none => ⟨400, none, s⟩
  | some p =>
    match extract p with
    | .error _ => ⟨500, none, s⟩
    | .ok (rid, rtext) =>
      if !rid.truthy then ⟨400, none, s⟩
      else
        let resp := if rtext.truthy then rtext else .str "Response completed via webhook"
        let updates : Dict :=
          [("status", .str "completed"), ("response", resp),
           ("completed_at", timeJson now), ("webhook_payload", p)]
        let r := update_response_data s rid updates
        ⟨200, some r.2, r.1⟩

end AppMain

/-! ## `src/main.py` — the Azure entry-point variant of the Flask app -/

namespace Main

/-- `/start` (src/main.py lines 245-286): same validation as the package
variant, but the stored record carries `status = "started"` and the
handler returns `jsonify(...)` without a status code, i.e. the Flask
default 200. -/
def start (body : Option Json) (provider : Except String ProviderResp)
    (s : Store) (now : Nat) : StartResult :=
  match body with
  | none => ⟨400, none, s⟩
  | some data =>
    if !data.truthy then ⟨400, none, s⟩
    else
      match pyIn "query" data with
      | .error _ => ⟨500, none, s⟩
      | .ok false => ⟨400, none, s⟩
      | .ok true =>
        match pyGetItem data "query" with
        | .error _ => ⟨500, none, s⟩
        | .ok query =>
          match provider with
          | .error _ => ⟨500, none, s⟩
          | .ok r =>
            let rec0 : Dict :=
              [("run_id", .str r.id), ("query", query),
               ("status", .str "started"), ("created_at", timeJson now),
               ("response_object", .obj [("id", .str r.id),
                 ("status", .str r.status), ("model", .str r.model)])]
            ⟨200, some r.id, store_response_data s (.str r.id) rec0⟩

/-- `/status/<run_id>` (src/main.py lines 288-357).  The guard
`if not data` (line 299) returns 404 both when the lookup yields `None`
and when it yields a falsy (empty) dict; past it the handler always
polls OpenAI: on a successful poll it merges the provider status into
the record and reports it, and only when the poll raises does it fall
back to the cached record unchanged. -/
def get_status (s : Store) (rid : String) (poll : Except String PollResp)
    (now : Nat) : StatusResult :=
  match get_response_data s (.str rid) with
  | none => ⟨404, false, none, s⟩
  | some data =>
    if data.isEmpty then ⟨404, false, none, s⟩
    else
    match poll with
    | .error _ =>
      ⟨200, true, some ((dget data "status").getD (.str "unknown")), s⟩
    | .ok r =>
      let updates : Dict :=
        [("status", .str r.status), ("updated_at", timeJson now),
         ("response_object", .obj [("id", .str r.id),
           ("status", .str r.status), ("model", .str r.model),
           ("output_text", r.output_text), ("error", r.error)])]
      let s' := (update_response_data s (.str rid) updates).1
      ⟨200, true, some (.str r.status), s'⟩

/-- `/webhook` (src/main.py lines 382-417): shared-secret check
(`Authorization: Bearer <token>`) with 401 on failure, 400 on a missing
or falsy JSON body, `run_id := data.get("id") or data.get("run_id")`
with 400 when falsy, then the webhook updates are merged via
`update_response_data` (return value discarded) and the handler returns
200.  `data.get` on a truthy non-dict body raises `AttributeError`,
which the enclosing `except` turns into a 500. -/
def webhook (token : Option String) (authHeader : Option String)
    (body : Option Json) (s : Store) (now : Nat) : WebhookResult :=
  let authOk : Bool :=
    match token with
    | none => true
    | some t =>
      match authHeader with
      | none => false
      | some h => h == "Bearer " ++ t
  if !authOk then ⟨401, none, s⟩
  else
    match body with
    | none => ⟨400, none, s⟩
    | some data =>
      if !data.truthy then ⟨400, none, s⟩
      else
        match data with
        | .obj fields =>
          let a := (dget fields "id").getD .null
          let rid := if a.truthy then a else (dget fields "run_id").getD .null
          if !rid.truthy then ⟨400, none, s⟩
          else
            let updates : Dict :=
              [("webhook_received_at", timeJson now), ("webhook_data", data),
               ("status", (dget fields "status").getD (.str "unknown"))]
            let r := update_response_data s rid updates
            ⟨200, some r.2, r.1⟩
        | _ => ⟨500, none, s⟩

end Main

/-! ## Spec-modelled edit / rollback lifecycle

The spec describes `/edit` and `/rollback` endpoints (spec §4.3, §6) and
a History Entry store, but no such code exists anywhere under `src/`;
the definitions below are modelled from the spec's words alone. -/

namespace Lifecycle

/-- A History Entry (spec §3): an immutable full-text snapshot of the
report, queried by `(run_id, timestamp)`. -/
structure HistEntry where
  run_id : String
  timestamp : Nat
  report : String

/-- The Run fields the edit / rollback operations touch (spec §3). -/
structure Run where
  run_id : String
  status : String
  report : String
  updated_at : Nat

/-- A run's durable state: the current Run record plus its append-only
history. -/
structure LifecycleState where
  run : Run
  history : List HistEntry

/-- Replace the first occurrence of `pat` in `s` by `sub`; `s` is
returned unchanged when `pat` does not occur (spec §9: first-occurrence
policy). -/
def replaceFirst (s pat sub : String) : String :=
  match s.splitOn pat with
  | [] => s
  | [_] => s
  | x :: y :: rest => x ++ sub ++ String.intercalate pat (y :: rest)

/-- Modelled from the spec: the `/edit` endpoint is absent from `src/`.
Spec §4.3 `edit`: obtain replacement text `revised` from Provider
Gateway `edit`, substitute the first occurrence of `original` inside
the stored `report`, write the updated Run, and append a History Entry
with the new full report and the current timestamp. -/
def edit (st : LifecycleState) (original revised : String) (now : Nat) :
    LifecycleState :=
  let newReport := replaceFirst st.run.report original revised
  { run := { st.run with report := newReport, updated_at := now },
    history := st.history ++ [⟨st.run.run_id, now, newReport⟩] }

/-- Modelled from the spec: the `/rollback` endpoint is absent from
`src/`.  Spec §4.3 `rollback`: look up the History Entry with that
exact timestamp; if absent, fail with not-found (`none`); otherwise
overwrite the Run's `report` with the historical value and set
`status = rolled_back`, without deleting any history. -/
def rollback (st : LifecycleState) (ts : Nat) : Option LifecycleState :=
  match st.history.find? (fun h => h.timestamp == ts) with
  | none => none
  | some h =>
    some { run := { st.run with report := h.report, status := "rolled_back" },
           history := st.history }

end Lifecycle

/-- The `k` field of the stored record for `rid`, when such a record
exists (a projection used to observe the store in the theorems below). -/
def storedField (s : Store) (rid : Json) (k : String) : Option Json :=
  match sget s rid with
  | none => none
  | some d => dget d k

/-! ## Theorems -/

theorem Json.eqb_refl : (j : Json) → Json.eqb j j = true
  | .null => by simp [Json.eqb]
  | .bool b => by simp [Json.eqb]
  | .num n => by simp [Json.eqb]
  | .str s => by simp [Json.eqb]
  | .arr [] => by simp [Json.eqb]
  | .arr (x :: xs) => by
      simp [Json.eqb, Json.eqb_refl x, Json.eqb_refl (.arr xs)]
  | .obj [] => by simp [Json.eqb]
  | .obj ((k, v) :: fs) => by
      simp [Json.eqb, Json.eqb_refl v, Json.eqb_refl (.obj fs)]

/-! ## Elementary facts about the dict operations -/

theorem dget_dset_self (d : Dict) (k : String) (v : Json) :
    dget (dset d k v) k = some v := by
  induction d with
  | nil => simp [dget, dset, alookup, aset]
  | cons p tl ih =>
    obtain ⟨k', v'⟩ := p
    by_cases h : (k' == k) = true
    · simp [dget, dset, alookup, aset, h]
    · simp only [Bool.not_eq_true] at h
      simpa [dget, dset, alookup, aset, h] using ih

theorem dget_dset_ne (d : Dict) {k j : String} (h : k ≠ j) (v : Json) :
    dget (dset d j v) k = dget d k := by
  induction d with
  | nil =>
    simp [dget, dset, alookup, aset]
    exact fun hh => h hh.symm
  | cons p tl ih =>
    obtain ⟨k', v'⟩ := p
    by_cases hj : (k' == j) = true
    · have hk : (k' == k) = false := by
        have : k' = j := by simpa using hj
        subst this
        simpa using fun hh => h (by simpa using hh.symm)
      simp [dget, dset, alookup, aset, hj, hk]
    · simp only [Bool.not_eq_true] at hj
      by_cases hk : (k' == k) = true
      · simp [dget, dset, alookup, aset, hj, hk]
      · simp only [Bool.not_eq_true] at hk
        simpa [dget, dset, alookup, aset, hj, hk] using ih

theorem dset_of_dget (d : Dict) (k : String) (v : Json) (h : dget d k = some v) :
    dset d k v = d := by
  induction d with
  | nil => simp [dget, alookup] at h
  | cons p tl ih =>
    obtain ⟨k', v'⟩ := p
    by_cases hk : (k' == k) = true
    · have : v' = v := by simpa [dget, alookup, hk] using h
      subst this
      simp [dset, aset, hk]
    · simp only [Bool.not_eq_true] at hk
      have h' : dget tl k = some v := by simpa [dget, alookup, hk] using h
      have step : dset ((k', v') :: tl) k v = (k', v') :: dset tl k v := by
        simp [dset, aset, hk]
      rw [step, ih h']

theorem sget_sset_self (s : Store) (rid : Json) (rec : Dict) :
    sget (sset s rid rec) rid = some rec := by
  induction s with
  | nil => simp [sget, sset, alookup, aset, Json.eqb_refl]
  | cons p tl ih =>
    obtain ⟨rid', rec'⟩ := p
    by_cases h : Json.eqb rid' rid = true
    · simp [sget, sset, alookup, aset, h]
    · simp only [Bool.not_eq_true] at h
      simpa [sget, sset, alookup, aset, h] using ih

theorem sset_of_sget (s : Store) (rid : Json) (rec : Dict) (h : sget s rid = some rec) :
    sset s rid rec = s := by
  induction s with
  | nil => simp [sget, alookup] at h
  | cons p tl ih =>
    obtain ⟨rid', rec'⟩ := p
    by_cases hk : Json.eqb rid' rid = true
    · have : rec' = rec := by simpa [sget, alookup, hk] using h
      subst this
      simp [sset, aset, hk]
    · simp only [Bool.not_eq_true] at hk
      have h' : sget tl rid = some rec := by simpa [sget, alookup, hk] using h
      have step : sset ((rid', rec') :: tl) rid rec = (rid', rec') :: sset tl rid rec := by
        simp [sset, aset, hk]
      rw [step, ih h']

/-! ## Claim C5 -/

/-- C5: for every GET `/status/{run_id}` request whose `run_id` has no
record in the Run Store, both handler variants return HTTP 404 (in
particular, never 500) and leave the store untouched. -/
theorem C5_unknown_run_id_404 (s : Store) (rid : String)
    (poll poll' : Except String PollResp) (now now' : Nat)
    (h : sget s (.str rid) = none) :
    (AppMain.get_status s rid poll now).status = 404 ∧
    (AppMain.get_status s rid poll now).store = s ∧
    (Main.get_status s rid poll' now').status = 404 ∧
    (Main.get_status s rid poll' now').store = s := by
  refine ⟨?_, ?_, ?_, ?_⟩ <;>
    simp [AppMain.get_status, Main.get_status, get_response_data, h]

/-- Witness for C5 at the empty store and `run_id = "nope"`. -/
theorem C5_unknown_run_id_404_witness :
    sget ([] : Store) (.str "nope") = none ∧
    (AppMain.get_status [] "nope" (.error "e") 0).status = 404 ∧
    (Main.get_status [] "nope" (.error "e") 0).status = 404 := by
  refine ⟨rfl, ?_, ?_⟩
  · exact (C5_unknown_run_id_404 [] "nope" (.error "e") (.error "e") 0 0 rfl).1
  · exact (C5_unknown_run_id_404 [] "nope" (.error "e") (.error "e") 0 0 rfl).2.2.1

/-! ## Claim C8 -/

/-- C8 counterexample: `CosmosDBManager.get_response` reports a storage
failure (a raised `CosmosHttpResponseError`, e.g. network unreachable)
with the same value `None` that it uses for a missing record, so the
caller cannot distinguish the two — contradicting the claim that
storage failures are reported as a kind of failure distinct from
not-found. -/
theorem C8_counterexample :
    Db.get_response (.httpError "network unreachable") = Db.get_response (.ok []) ∧
    Db.get_response (.httpError "network unreachable") = none ∧
    Db.get_response (.otherError "credential missing") = none := by
  exact ⟨rfl, rfl, rfl⟩

/-- C8 amended: `get_response` on a missing key returns the explicit
absence value `None` and never raises (both `except` clauses swallow
the exception), but a storage failure during `get` is also reported as
`None`, indistinguishable from not-found. -/
theorem C8_amended :
    (∀ items, Db.get_response (.ok items) = items.head?) ∧
    (∀ m, Db.get_response (.httpError m) = none) ∧
    (∀ m, Db.get_response (.otherError m) = none) := by
  exact ⟨fun _ => rfl, fun _ => rfl, fun _ => rfl⟩

/-! ## Claim C10 -/

/-- C10: an authenticated `/webhook` request (src/app/main.py) whose
payload yields a `run_id` with no record in the store still returns
HTTP 200; `update_response_data` reports failure (`False`), the return
value is discarded, and no record is created or mutated. -/
theorem C10_webhook_unknown_run_200 (p : Json) (rid rtext : Json)
    (verify : Except String VerifiedEvent) (s : Store) (now : Nat)
    (hex : AppMain.extract p = .ok (rid, rtext))
    (htruthy : rid.truthy = true)
    (habsent : sget s rid = none) :
    (AppMain.webhook none none verify (some p) s now).status = 200 ∧
    (AppMain.webhook none none verify (some p) s now).updateOk = some false ∧
    (AppMain.webhook none none verify (some p) s now).store = s := by
  refine ⟨?_, ?_, ?_⟩ <;>
    simp [AppMain.webhook, hex, htruthy, update_response_data, habsent]

/-- Witness for C10: payload `{"id": "zz"}` against a store holding only
`"r1"`. -/
theorem C10_webhook_unknown_run_200_witness :
    AppMain.extract (.obj [("id", .str "zz")])
      = .ok (.str "zz", .str "Webhook received") ∧
    (Json.str "zz").truthy = true ∧
    sget ([(.str "r1", [("status", .str "running")])] : Store) (.str "zz") = none ∧
    (AppMain.webhook none none (.error "") (some (.obj [("id", .str "zz")]))
        [(.str "r1", [("status", .str "running")])] 4).status = 200 ∧
    (AppMain.webhook none none (.error "") (some (.obj [("id", .str "zz")]))
        [(.str "r1", [("status", .str "running")])] 4).updateOk = some false := by
  have habsent : sget ([(.str "r1", [("status", .str "running")])] : Store) (.str "zz")
      = none := by
    simp [sget, alookup, Json.eqb]
  refine ⟨rfl, rfl, habsent, ?_, ?_⟩
  · exact (C10_webhook_unknown_run_200 (.obj [("id", .str "zz")]) (.str "zz")
      (.str "Webhook received") (.error "") _ 4 rfl rfl habsent).1
  · exact (C10_webhook_unknown_run_200 (.obj [("id", .str "zz")]) (.str "zz")
      (.str "Webhook received") (.error "") _ 4 rfl rfl habsent).2.1

/-! ## Claim C9 -/

/-- C9 (spec-modelled: `/edit` and `/rollback` are absent from `src/`):
for a completed run, an edit followed by a rollback to the history
timestamp immediately preceding that edit — i.e. a timestamp whose
History Entry carries the pre-edit report — restores the Run's `report`
to the exact pre-edit text, and the rollback deletes no History Entry. -/
theorem C9_edit_rollback_roundtrip (st : Lifecycle.LifecycleState)
    (original revised : String) (now ts0 : Nat) (h0 : Lifecycle.HistEntry)
    (_hstatus : st.run.status = "completed")
    (hfind : st.history.find? (fun h => h.timestamp == ts0) = some h0)
    (hrep : h0.report = st.run.report) :
    ∃ st', Lifecycle.rollback (Lifecycle.edit st original revised now) ts0 = some st' ∧
      st'.run.report = st.run.report ∧
      st'.history = st.history
        ++ [⟨st.run.run_id, now, Lifecycle.replaceFirst st.run.report original revised⟩] ∧
      ∀ e ∈ st.history, e ∈ st'.history := by
  have hfind' : ((Lifecycle.edit st original revised now).history).find?
      (fun h => h.timestamp == ts0) = some h0 := by
    simp only [Lifecycle.edit, List.find?_append, hfind]
    rfl
  have hroll : Lifecycle.rollback (Lifecycle.edit st original revised now) ts0
      = some { run := { (Lifecycle.edit st original revised now).run with
                 report := h0.report, status := "rolled_back" },
               history := (Lifecycle.edit st original revised now).history } := by
    simp only [Lifecycle.rollback, hfind']
  refine ⟨_, hroll, hrep, ?_, ?_⟩
  · simp [Lifecycle.edit]
  · intro e he
    simp only [Lifecycle.edit, List.mem_append]
    exact Or.inl he

/-- Witness for C9: run `"r1"` completed with report `"Hi there"`,
history entry at timestamp 1, edit replacing `"Hi there"` by
`"Greetings"` at timestamp 2, rollback to timestamp 1. -/
theorem C9_edit_rollback_roundtrip_witness :
    (⟨⟨"r1", "completed", "Hi there", 0⟩,
        [⟨"r1", 1, "Hi there"⟩]⟩ : Lifecycle.LifecycleState).run.status = "completed" ∧
    ([⟨"r1", 1, "Hi there"⟩] : List Lifecycle.HistEntry).find?
        (fun h => h.timestamp == 1) = some ⟨"r1", 1, "Hi there"⟩ ∧
    ∃ st', Lifecycle.rollback
        (Lifecycle.edit ⟨⟨"r1", "completed", "Hi there", 0⟩,
          [⟨"r1", 1, "Hi there"⟩]⟩ "Hi there" "Greetings" 2) 1 = some st' ∧
      st'.run.report = "Hi there" := by
  refine ⟨rfl, rfl, ?_⟩
  obtain ⟨st', h1, h2, -, -⟩ :=
    C9_edit_rollback_roundtrip
      ⟨⟨"r1", "completed", "Hi there", 0⟩, [⟨"r1", 1, "Hi there"⟩]⟩
      "Hi there" "Greetings" 2 1 ⟨"r1", 1, "Hi there"⟩ rfl rfl rfl
  exact ⟨st', h1, h2⟩

/-! ## Claim C1 -/

/-- C1 counterexample: in src/app/main.py, with a webhook secret
configured and a signature header present, a *failed* provider
signature verification does not produce 403/401 — the handler continues
with the unverified raw payload, returns HTTP 200 and mutates the
stored record for `"r1"`. -/
theorem C1_counterexample :
    (AppMain.webhook (some "sec") (some "sig") (.error "bad signature")
        (some (.obj [("id", .str "r1")]))
        [(.str "r1", [("status", .str "running")])] 5).status = 200 ∧
    (AppMain.webhook (some "sec") (some "sig") (.error "bad signature")
        (some (.obj [("id", .str "r1")]))
        [(.str "r1", [("status", .str "running")])] 5).store
      ≠ [(.str "r1", [("status", .str "running")])] := by
  constructor
  · rfl
  · intro hcontra
    have h2 := congrArg (fun st => storedField st (.str "r1") "completed_at") hcontra
    simp [storedField, AppMain.webhook, AppMain.extract, update_response_data, sget,
      sset, alookup, aset, Json.eqb, dget, dset, dupd, aupd, timeJson,
      Json.truthy] at h2

/-- C1 amended: the shared-secret token path (src/main.py) does reject:
with a webhook token configured, a request with a missing or wrong
`Authorization` header gets HTTP 401 and the store is unchanged;
the provider-signature path of src/app/main.py, however, falls back to
the unverified payload on verification failure instead of rejecting. -/
theorem C1_amended (t : String) (authHeader : Option String) (body : Option Json)
    (s : Store) (now : Nat)
    (h : ∀ hd, authHeader = some hd → hd ≠ "Bearer " ++ t) :
    (Main.webhook (some t) authHeader body s now).status = 401 ∧
    (Main.webhook (some t) authHeader body s now).store = s := by
  cases authHeader with
  | none => exact ⟨rfl, rfl⟩
  | some hd =>
    have hne : (hd == "Bearer " ++ t) = false := by
      simpa using h hd rfl
    constructor <;> simp [Main.webhook, hne]

/-- Witness for C1 amended: token `"tok"`, header `Bearer wrong`. -/
theorem C1_amended_witness :
    (∀ hd, (some "Bearer wrong" : Option String) = some hd →
        hd ≠ "Bearer " ++ "tok") ∧
    (Main.webhook (some "tok") (some "Bearer wrong")
        (some (.obj [("id", .str "r1")])) [(.str "r1", [])] 0).status = 401 ∧
    (Main.webhook (some "tok") (some "Bearer wrong")
        (some (.obj [("id", .str "r1")])) [(.str "r1", [])] 0).store
      = [(.str "r1", [])] := by
  have h : ∀ hd, (some "Bearer wrong" : Option String) = some hd →
      hd ≠ "Bearer " ++ "tok" := by
    intro hd he
    cases he
    decide
  exact ⟨h, (C1_amended "tok" _ _ _ 0 h).1, (C1_amended "tok" _ _ _ 0 h).2⟩

/-! ## Claim C2 -/

/-- C2 counterexample: a run stored with terminal status `"completed"`
is still polled by GET `/status` (src/main.py), and a successful poll
mutates the stored record (here `updated_at` appears), contradicting
"returns the cached stored record, does not call the Provider Gateway
poll operation, and leaves the stored record unchanged". -/
theorem C2_counterexample :
    (Main.get_status [(.str "r1", [("status", .str "completed")])] "r1"
        (.ok ⟨"r1", "completed", "m", .str "t", .null⟩) 7).polled = true ∧
    (Main.get_status [(.str "r1", [("status", .str "completed")])] "r1"
        (.ok ⟨"r1", "completed", "m", .str "t", .null⟩) 7).store
      ≠ [(.str "r1", [("status", .str "completed")])] := by
  constructor
  · simp [Main.get_status, get_response_data, sget, alookup, Json.eqb]
  · intro hcontra
    have h2 := congrArg (fun st => storedField st (.str "r1") "updated_at") hcontra
    simp [storedField, Main.get_status, get_response_data, update_response_data,
      sget, sset, alookup, aset, Json.eqb, dget, dset, dupd, aupd, timeJson] at h2

/-- C2 amended: whenever the stored record exists and is non-empty
(Python-truthy) — terminal or not — both GET `/status` variants reach
the provider poll; the cached record is returned unchanged only when
the poll raises.  (A missing or empty record yields 404 without
polling.) -/
theorem C2_amended (s : Store) (rid : String) (d : Dict)
    (poll : Except String PollResp) (now : Nat)
    (h : sget s (.str rid) = some d) (hne : d.isEmpty = false) :
    (AppMain.get_status s rid poll now).polled = true ∧
    (Main.get_status s rid poll now).polled = true ∧
    (∀ e, poll = .error e →
      (AppMain.get_status s rid poll now).store = s ∧
      (Main.get_status s rid poll now).store = s) := by
  cases poll with
  | error e =>
    refine ⟨?_, ?_, fun e' he' => ⟨?_, ?_⟩⟩ <;>
      simp [AppMain.get_status, Main.get_status, get_response_data, h, hne]
  | ok p =>
    refine ⟨?_, ?_, fun e' he' => by cases he'⟩
    · simp only [AppMain.get_status, get_response_data, h, hne, Bool.false_eq_true,
        if_false]
      split <;> rfl
    · simp only [Main.get_status, get_response_data, h, hne, Bool.false_eq_true,
        if_false]

/-- Witness for C2 amended: run `"r1"` stored with status `"completed"`
and a failing poll. -/
theorem C2_amended_witness :
    sget ([(.str "r1", [("status", .str "completed")])] : Store) (.str "r1")
      = some [("status", .str "completed")] ∧
    ([("status", Json.str "completed")] : Dict).isEmpty = false ∧
    (AppMain.get_status [(.str "r1", [("status", .str "completed")])] "r1"
        (.error "down") 0).polled = true ∧
    (Main.get_status [(.str "r1", [("status", .str "completed")])] "r1"
        (.error "down") 0).store
      = [(.str "r1", [("status", .str "completed")])] := by
  have h : sget ([(.str "r1", [("status", .str "completed")])] : Store) (.str "r1")
      = some [("status", .str "completed")] := by
    simp [sget, alookup, Json.eqb]
  refine ⟨h, rfl, ?_, ?_⟩
  · exact (C2_amended _ "r1" _ (.error "down") 0 h rfl).1
  · exact ((C2_amended _ "r1" _ (.error "down") 0 h rfl).2.2 "down" rfl).2

/-! ## Claim C4 -/

/-- C4 counterexample: in src/main.py, a valid POST `/start` submission
returns the Flask-default HTTP 200 (not 202) and writes an initial
record with `status = "started"` (not `"running"`). -/
theorem C4_counterexample :
    (Main.start (some (.obj [("query", .str "hello")]))
        (.ok ⟨"r1", "queued", "m"⟩) [] 3).status = 200 ∧
    storedField (Main.start (some (.obj [("query", .str "hello")]))
        (.ok ⟨"r1", "queued", "m"⟩) [] 3).store (.str "r1") "status"
      = some (.str "started") := by
  constructor
  · rfl
  · simp [Main.start, storedField, store_response_data, sget, sset, alookup, aset,
      Json.eqb, dget, dset, timeJson, Json.truthy, pyIn, pyGetItem]

/-- C4 amended: in src/app/main.py, a valid submission with a successful
provider submit returns HTTP 202 with the provider-assigned (non-empty)
`run_id`, writes an initial record with `status = "running"`, and a
subsequent GET `/status` that observes no provider completion still
reports `"running"`.  (src/main.py instead returns 200 with
`status = "started"` — see C4_counterexample.) -/
theorem C4_amended (q : Json) (r : ProviderResp) (s : Store) (now : Nat)
    (poll : Except String PollResp) (now' : Nat)
    (hid : r.id ≠ "")
    (hpoll : ∀ p, poll = .ok p →
      (p.status == "completed" && p.output_text.truthy) = false) :
    (AppMain.start (some (.obj [("query", q)])) (.ok r) s now).status = 202 ∧
    (AppMain.start (some (.obj [("query", q)])) (.ok r) s now).run_id = some r.id ∧
    r.id ≠ "" ∧
    storedField (AppMain.start (some (.obj [("query", q)])) (.ok r) s now).store
        (.str r.id) "status" = some (.str "running") ∧
    (AppMain.get_status
        (AppMain.start (some (.obj [("query", q)])) (.ok r) s now).store
        r.id poll now').bodyStatus = some (.str "running") := by
  have hstore : (AppMain.start (some (.obj [("query", q)])) (.ok r) s now).store
      = sset s (.str r.id)
          [("status", .str "running"), ("query", q), ("started_at", timeJson now),
           ("response", .null), ("openai_status", .str r.status)] := rfl
  have hrec : dget [("status", Json.str "running"), ("query", q),
      ("started_at", timeJson now), ("response", Json.null),
      ("openai_status", .str r.status)] "status" = some (.str "running") := by
    simp [dget, alookup]
  have hlook := sget_sset_self s (.str r.id)
    [("status", Json.str "running"), ("query", q), ("started_at", timeJson now),
     ("response", Json.null), ("openai_status", .str r.status)]
  refine ⟨rfl, rfl, hid, ?_, ?_⟩
  · rw [hstore]
    simp [storedField, hlook, hrec]
  · rw [hstore]
    cases poll with
    | error e =>
      simp [AppMain.get_status, get_response_data, hlook, hrec]
    | ok p =>
      have hc := hpoll p rfl
      simp only [AppMain.get_status, get_response_data, hlook, hc, Bool.false_eq_true,
        if_false, update_response_data, sget_sset_self]
      have hupd : dupd [("status", Json.str "running"), ("query", q),
          ("started_at", timeJson now), ("response", Json.null),
          ("openai_status", Json.str r.status)]
          [("openai_status", Json.str p.status), ("last_checked", timeJson now')]
        = dset (dset [("status", Json.str "running"), ("query", q),
            ("started_at", timeJson now), ("response", Json.null),
            ("openai_status", Json.str r.status)]
            "openai_status" (.str p.status)) "last_checked" (timeJson now') := rfl
      rw [hupd, dget_dset_ne _ (by decide), dget_dset_ne _ (by decide), hrec]
      rfl

/-- Witness for C4 amended: query `"hello"`, provider run id `"r1"`,
initial status `"queued"`, and a failing first poll. -/
theorem C4_amended_witness :
    ("r1" : String) ≠ "" ∧
    (∀ p : PollResp, (Except.error "down" : Except String PollResp) = .ok p →
      (p.status == "completed" && p.output_text.truthy) = false) ∧
    (AppMain.start (some (.obj [("query", .str "hello")]))
        (.ok ⟨"r1", "queued", "m"⟩) [] 0).status = 202 ∧
    storedField (AppMain.start (some (.obj [("query", .str "hello")]))
        (.ok ⟨"r1", "queued", "m"⟩) [] 0).store (.str "r1") "status"
      = some (.str "running") ∧
    (AppMain.get_status
        (AppMain.start (some (.obj [("query", .str "hello")]))
          (.ok ⟨"r1", "queued", "m"⟩) [] 0).store
        "r1" (.error "down") 1).bodyStatus = some (.str "running") := by
  have hid : ("r1" : String) ≠ "" := by decide
  have hpoll : ∀ p : PollResp, (Except.error "down" : Except String PollResp) = .ok p →
      (p.status == "completed" && p.output_text.truthy) = false := by
    intro p hp
    cases hp
  obtain ⟨h1, -, -, h4, h5⟩ :=
    C4_amended (.str "hello") ⟨"r1", "queued", "m"⟩ [] 0 (.error "down") 1 hid hpoll
  exact ⟨hid, hpoll, h1, h4, h5⟩

/-! ## Claim C3 -/

/-- Merging the four webhook-completion keys a second time with the same
values leaves the record unchanged. -/
theorem dupd_webhook_idem (rec : Dict) (va vb vc vd : Json) :
    dupd (dupd rec [("status", va), ("response", vb), ("completed_at", vc),
        ("webhook_payload", vd)])
      [("status", va), ("response", vb), ("completed_at", vc), ("webhook_payload", vd)]
    = dupd rec [("status", va), ("response", vb), ("completed_at", vc),
        ("webhook_payload", vd)] := by
  have unf : ∀ d : Dict, dupd d [("status", va), ("response", vb), ("completed_at", vc),
        ("webhook_payload", vd)]
      = dset (dset (dset (dset d "status" va) "response" vb) "completed_at" vc)
          "webhook_payload" vd := fun d => rfl
  rw [unf, unf]
  have h1 : dget (dset (dset (dset (dset rec "status" va) "response" vb)
      "completed_at" vc) "webhook_payload" vd) "status" = some va := by
    rw [dget_dset_ne _ (by decide), dget_dset_ne _ (by decide),
      dget_dset_ne _ (by decide), dget_dset_self]
  rw [dset_of_dget _ _ _ h1]
  have h2 : dget (dset (dset (dset (dset rec "status" va) "response" vb)
      "completed_at" vc) "webhook_payload" vd) "response" = some vb := by
    rw [dget_dset_ne _ (by decide), dget_dset_ne _ (by decide), dget_dset_self]
  rw [dset_of_dget _ _ _ h2]
  have h3 : dget (dset (dset (dset (dset rec "status" va) "response" vb)
      "completed_at" vc) "webhook_payload" vd) "completed_at" = some vc := by
    rw [dget_dset_ne _ (by decide), dget_dset_self]
  rw [dset_of_dget _ _ _ h3]
  exact dset_of_dget _ _ _ (dget_dset_self _ _ _)

/-- Applying the webhook-completion update twice through
`update_response_data` is the same as applying it once. -/
theorem update_webhook_idem (s : Store) (rid : Json) (va vb vc vd : Json) :
    (update_response_data
        (update_response_data s rid [("status", va), ("response", vb),
          ("completed_at", vc), ("webhook_payload", vd)]).1
        rid [("status", va), ("response", vb), ("completed_at", vc),
          ("webhook_payload", vd)]).1
    = (update_response_data s rid [("status", va), ("response", vb),
        ("completed_at", vc), ("webhook_payload", vd)]).1 := by
  cases hs : sget s rid with
  | none => simp [update_response_data, hs]
  | some rec =>
    simp only [update_response_data, hs, sget_sset_self, dupd_webhook_idem]
    exact sset_of_sget _ _ _ (sget_sset_self _ _ _)

/-- Reading a field of a record after the four webhook-completion keys
were merged: the four keys read back the merged values and every other
key is untouched. -/
theorem dget_dupd_webhook (rec : Dict) (va vb vc vd : Json) (k : String) :
    dget (dupd rec [("status", va), ("response", vb), ("completed_at", vc),
        ("webhook_payload", vd)]) k
      = if k = "status" then some va
        else if k = "response" then some vb
        else if k = "completed_at" then some vc
        else if k = "webhook_payload" then some vd
        else dget rec k := by
  have unf : dupd rec [("status", va), ("response", vb), ("completed_at", vc),
        ("webhook_payload", vd)]
      = dset (dset (dset (dset rec "status" va) "response" vb) "completed_at" vc)
          "webhook_payload" vd := rfl
  rw [unf]
  by_cases h1 : k = "status"
  · subst h1
    rw [dget_dset_ne _ (by decide), dget_dset_ne _ (by decide),
      dget_dset_ne _ (by decide), dget_dset_self]
    simp
  · by_cases h2 : k = "response"
    · subst h2
      rw [dget_dset_ne _ (by decide), dget_dset_ne _ (by decide), dget_dset_self]
      simp
    · by_cases h3 : k = "completed_at"
      · subst h3
        rw [dget_dset_ne _ (by decide), dget_dset_self]
        simp
      · by_cases h4 : k = "webhook_payload"
        · subst h4
          rw [dget_dset_self]
          simp
        · rw [dget_dset_ne _ h4, dget_dset_ne _ h3, dget_dset_ne _ h2,
            dget_dset_ne _ h1]
          simp [h1, h2, h3, h4]

/-- Re-applying the webhook-completion update (with a possibly
different `completed_at` value, the other three values unchanged)
alters the stored record at most at `completed_at`, which afterwards
holds the second value; when the run existed beforehand, `completed_at`
holds exactly the value of the latest application. -/
theorem update_webhook_frame (s : Store) (rid : Json) (va vb vc1 vc2 vd : Json)
    (k : String) (hk : k ≠ "completed_at") :
    storedField (update_response_data
        (update_response_data s rid [("status", va), ("response", vb),
          ("completed_at", vc1), ("webhook_payload", vd)]).1
        rid [("status", va), ("response", vb), ("completed_at", vc2),
          ("webhook_payload", vd)]).1 rid k
      = storedField (update_response_data s rid [("status", va), ("response", vb),
          ("completed_at", vc1), ("webhook_payload", vd)]).1 rid k ∧
    (∀ d, sget s rid = some d →
      storedField (update_response_data
          (update_response_data s rid [("status", va), ("response", vb),
            ("completed_at", vc1), ("webhook_payload", vd)]).1
          rid [("status", va), ("response", vb), ("completed_at", vc2),
            ("webhook_payload", vd)]).1 rid "completed_at" = some vc2 ∧
      storedField (update_response_data s rid [("status", va), ("response", vb),
          ("completed_at", vc1), ("webhook_payload", vd)]).1 rid "completed_at"
        = some vc1) := by
  cases hs : sget s rid with
  | none =>
    refine ⟨?_, fun d hd => ?_⟩
    · simp [update_response_data, hs]
    · exact Option.noConfusion hd
  | some rec =>
    simp only [update_response_data, hs, storedField, sget_sset_self]
    refine ⟨?_, fun d hd => ⟨?_, ?_⟩⟩
    · rw [dget_dupd_webhook, dget_dupd_webhook]
      split_ifs <;> rfl
    · rw [dget_dupd_webhook]
      simp
    · rw [dget_dupd_webhook]
      simp

/-- C3 counterexample: the same completed-webhook payload delivered
twice (at ticks 1 and 2) to src/app/main.py leaves a record that
differs from the once-delivered record — `completed_at` is refreshed to
the second delivery time. -/
theorem C3_counterexample :
    storedField (AppMain.webhook none none (.error "")
        (some (.obj [("id", .str "r1")]))
        [(.str "r1", [("status", .str "running")])] 1).store
        (.str "r1") "completed_at" = some (.str "1") ∧
    storedField (AppMain.webhook none none (.error "")
        (some (.obj [("id", .str "r1")]))
        (AppMain.webhook none none (.error "")
          (some (.obj [("id", .str "r1")]))
          [(.str "r1", [("status", .str "running")])] 1).store 2).store
        (.str "r1") "completed_at" = some (.str "2") ∧
    (AppMain.webhook none none (.error "")
        (some (.obj [("id", .str "r1")]))
        (AppMain.webhook none none (.error "")
          (some (.obj [("id", .str "r1")]))
          [(.str "r1", [("status", .str "running")])] 1).store 2).store
      ≠ (AppMain.webhook none none (.error "")
          (some (.obj [("id", .str "r1")]))
          [(.str "r1", [("status", .str "running")])] 1).store := by
  have h1 : storedField (AppMain.webhook none none (.error "")
      (some (.obj [("id", .str "r1")]))
      [(.str "r1", [("status", .str "running")])] 1).store
      (.str "r1") "completed_at" = some (.str "1") := by
    simp [storedField, AppMain.webhook, AppMain.extract, update_response_data, sget,
      sset, alookup, aset, Json.eqb, dget, dset, dupd, aupd, timeJson, Json.truthy]
    decide
  have h2 : storedField (AppMain.webhook none none (.error "")
      (some (.obj [("id", .str "r1")]))
      (AppMain.webhook none none (.error "")
        (some (.obj [("id", .str "r1")]))
        [(.str "r1", [("status", .str "running")])] 1).store 2).store
      (.str "r1") "completed_at" = some (.str "2") := by
    simp [storedField, AppMain.webhook, AppMain.extract, update_response_data, sget,
      sset, alookup, aset, Json.eqb, dget, dset, dupd, aupd, timeJson, Json.truthy]
    decide
  refine ⟨h1, h2, ?_⟩
  intro hcontra
  have h3 := congrArg (fun st => storedField st (.str "r1") "completed_at") hcontra
  simp only [] at h3
  rw [h1, h2] at h3
  simp at h3

/-- C3 amended: a duplicate delivery of the same completed webhook
leaves the stored Run record identical except at the wall-clock-stamped
field — every field other than `completed_at` is unchanged by the
second delivery, while `completed_at` is refreshed to the second
delivery time; at equal delivery ticks the store is exactly identical
to the once-applied store. -/
theorem C3_amended (p rid rtext : Json) (verify : Except String VerifiedEvent)
    (s : Store) (t1 t2 : Nat) (k : String)
    (hex : AppMain.extract p = .ok (rid, rtext))
    (htr : rid.truthy = true)
    (hk : k ≠ "completed_at") :
    storedField (AppMain.webhook none none verify (some p)
        (AppMain.webhook none none verify (some p) s t1).store t2).store rid k
      = storedField (AppMain.webhook none none verify (some p) s t1).store rid k ∧
    (∀ d, sget s rid = some d →
      storedField (AppMain.webhook none none verify (some p)
          (AppMain.webhook none none verify (some p) s t1).store t2).store rid
          "completed_at" = some (timeJson t2) ∧
      storedField (AppMain.webhook none none verify (some p) s t1).store rid
          "completed_at" = some (timeJson t1)) ∧
    (t2 = t1 →
      (AppMain.webhook none none verify (some p)
          (AppMain.webhook none none verify (some p) s t1).store t2).store
        = (AppMain.webhook none none verify (some p) s t1).store) := by
  have hweb : ∀ (st : Store) (t : Nat),
      (AppMain.webhook none none verify (some p) st t).store
        = (update_response_data st rid [("status", .str "completed"),
            ("response", if rtext.truthy then rtext
              else .str "Response completed via webhook"),
            ("completed_at", timeJson t), ("webhook_payload", p)]).1 := by
    intro st t
    simp [AppMain.webhook, hex, htr]
  simp only [hweb]
  obtain ⟨hframe, hca⟩ := update_webhook_frame s rid (.str "completed")
    (if rtext.truthy then rtext else .str "Response completed via webhook")
    (timeJson t1) (timeJson t2) p k hk
  refine ⟨hframe, hca, ?_⟩
  intro ht
  subst ht
  exact update_webhook_idem s rid _ _ _ _

/-- Witness for C3 amended: payload `{"id": "r1"}` delivered at ticks 1
and 2 against a store holding `"r1"`, observed at the field
`"response"`. -/
theorem C3_amended_witness :
    AppMain.extract (.obj [("id", .str "r1")])
      = .ok (.str "r1", .str "Webhook received") ∧
    (Json.str "r1").truthy = true ∧
    ("response" : String) ≠ "completed_at" ∧
    storedField (AppMain.webhook none none (.error "")
        (some (.obj [("id", .str "r1")]))
        (AppMain.webhook none none (.error "")
          (some (.obj [("id", .str "r1")]))
          [(.str "r1", [("status", .str "running")])] 1).store 2).store
        (.str "r1") "response"
      = storedField (AppMain.webhook none none (.error "")
          (some (.obj [("id", .str "r1")]))
          [(.str "r1", [("status", .str "running")])] 1).store
          (.str "r1") "response" ∧
    storedField (AppMain.webhook none none (.error "")
        (some (.obj [("id", .str "r1")]))
        (AppMain.webhook none none (.error "")
          (some (.obj [("id", .str "r1")]))
          [(.str "r1", [("status", .str "running")])] 1).store 2).store
        (.str "r1") "completed_at" = some (timeJson 2) := by
  have hd : sget ([(.str "r1", [("status", .str "running")])] : Store) (.str "r1")
      = some [("status", .str "running")] := by
    simp [sget, alookup, Json.eqb]
  obtain ⟨h1, h2, -⟩ := C3_amended (.obj [("id", .str "r1")]) (.str "r1")
    (.str "Webhook received") (.error "")
    [(.str "r1", [("status", .str "running")])] 1 2 "response" rfl rfl (by decide)
  exact ⟨rfl, rfl, by decide, h1, (h2 _ hd).1⟩

/-! ## Claim C6 -/

/-- C6 counterexample: a present-but-empty `query` passes the `/start`
validation of src/app/main.py — the handler returns HTTP 202 and a Run
record is created, contradicting "returns HTTP 400 and no Run record
is created". -/
theorem C6_counterexample :
    (AppMain.start (some (.obj [("query", .str "")]))
        (.ok ⟨"r1", "queued", "m"⟩) [] 0).status = 202 ∧
    storedField (AppMain.start (some (.obj [("query", .str "")]))
        (.ok ⟨"r1", "queued", "m"⟩) [] 0).store (.str "r1") "query"
      = some (.str "") := by
  constructor
  · rfl
  · simp [AppMain.start, storedField, store_response_data, sget, sset, alookup,
      aset, Json.eqb, dget, dset, timeJson, Json.truthy, pyIn, pyGetItem]

/-- C6 amended: a JSON-dict body without a `query` key is rejected with
HTTP 400 by both `/start` variants and no record is created; a
present-but-empty `query`, however, is accepted (202 in
src/app/main.py) and a record is created. -/
theorem C6_amended (fields : Dict) (provider provider' : Except String ProviderResp)
    (s s' s'' : Store) (now now' now'' : Nat) (r : ProviderResp)
    (hq : dget fields "query" = none) :
    (AppMain.start (some (.obj fields)) provider s now).status = 400 ∧
    (AppMain.start (some (.obj fields)) provider s now).store = s ∧
    (Main.start (some (.obj fields)) provider' s' now').status = 400 ∧
    (Main.start (some (.obj fields)) provider' s' now').store = s' ∧
    (AppMain.start (some (.obj [("query", .str "")])) (.ok r) s'' now'').status = 202 := by
  cases fields with
  | nil => exact ⟨rfl, rfl, rfl, rfl, rfl⟩
  | cons q tl =>
    refine ⟨?_, ?_, ?_, ?_, rfl⟩ <;>
      simp [AppMain.start, Main.start, pyIn, Json.truthy, hq]

/-- Witness for C6 amended at the body `{"notquery": "x"}`. -/
theorem C6_amended_witness :
    dget [("notquery", Json.str "x")] "query" = none ∧
    (AppMain.start (some (.obj [("notquery", .str "x")]))
        (.ok ⟨"r1", "queued", "m"⟩) [] 0).status = 400 ∧
    (Main.start (some (.obj [("notquery", .str "x")]))
        (.ok ⟨"r1", "queued", "m"⟩) [] 0).status = 400 ∧
    (AppMain.start (some (.obj [("query", .str "")]))
        (.ok ⟨"r1", "queued", "m"⟩) [] 0).status = 202 := by
  have hq : dget [("notquery", Json.str "x")] "query" = none := rfl
  obtain ⟨h1, -, h3, -, h5⟩ :=
    C6_amended [("notquery", Json.str "x")] (.ok ⟨"r1", "queued", "m"⟩)
      (.ok ⟨"r1", "queued", "m"⟩) [] [] [] 0 0 0 ⟨"r1", "queued", "m"⟩ hq
  exact ⟨hq, h1, h3, h5⟩

/-! ## Claim C7 -/

/-- C7 counterexample: two authenticated payloads from which no
`run_id` can be extracted, yet the handler returns HTTP 500 rather than
400: in src/app/main.py the payload `{"response": "x"}` makes
`payload["response"].get` raise `AttributeError`; in src/main.py a
JSON-array body makes `data.get` raise. -/
theorem C7_counterexample :
    (AppMain.webhook none none (.error "")
        (some (.obj [("response", .str "x")])) [] 0).status = 500 ∧
    (Main.webhook none none (some (.arr [.num 1])) [] 0).status = 500 := by
  exact ⟨rfl, rfl⟩

/-- C7 amended: an authenticated webhook whose payload yields no
`run_id` is never silently dropped and never mutates the store, but the
error response is 400 only when the extraction completes; payload
shapes that make the extraction raise produce HTTP 500 instead. -/
theorem C7_amended (p p2 : Json) (fields : Dict) (j : Json)
    (verify : Except String VerifiedEvent) (s s2 s3 s4 : Store) (now : Nat)
    (rid rtext : Json)
    (hex : AppMain.extract p = .ok (rid, rtext)) (hfalsy : rid.truthy = false)
    (herr : AppMain.extract p2 = .error ())
    (h1 : ((dget fields "id").getD .null).truthy = false)
    (h2 : ((dget fields "run_id").getD .null).truthy = false)
    (htr : j.truthy = true) (hnotobj : ∀ fs, j ≠ .obj fs) :
    ((AppMain.webhook none none verify (some p) s now).status = 400 ∧
     (AppMain.webhook none none verify (some p) s now).store = s) ∧
    ((AppMain.webhook none none verify (some p2) s2 now).status = 500 ∧
     (AppMain.webhook none none verify (some p2) s2 now).store = s2) ∧
    ((Main.webhook none none (some (.obj fields)) s3 now).status = 400 ∧
     (Main.webhook none none (some (.obj fields)) s3 now).store = s3) ∧
    ((Main.webhook none none (some j) s4 now).status = 500 ∧
     (Main.webhook none none (some j) s4 now).store = s4) := by
  refine ⟨⟨?_, ?_⟩, ⟨?_, ?_⟩, ⟨?_, ?_⟩, ⟨?_, ?_⟩⟩
  · simp [AppMain.webhook, hex, hfalsy]
  · simp [AppMain.webhook, hex, hfalsy]
  · simp [AppMain.webhook, herr]
  · simp [AppMain.webhook, herr]
  · cases fields with
    | nil => rfl
    | cons q tl =>
      simp only [Json.truthy] at h1 h2
      simp [Main.webhook, Json.truthy, h1, h2]
  · cases fields with
    | nil => rfl
    | cons q tl =>
      simp only [Json.truthy] at h1 h2
      simp [Main.webhook, Json.truthy, h1, h2]
  · cases j with
    | obj fs => exact absurd rfl (hnotobj fs)
    | null => simp [Json.truthy] at htr
    | bool b => simp [Main.webhook, htr]
    | num n => simp [Main.webhook, htr]
    | str t => simp [Main.webhook, htr]
    | arr xs => simp [Main.webhook, htr]
  · cases j with
    | obj fs => exact absurd rfl (hnotobj fs)
    | null => simp [Json.truthy] at htr
    | bool b => simp [Main.webhook, htr]
    | num n => simp [Main.webhook, htr]
    | str t => simp [Main.webhook, htr]
    | arr xs => simp [Main.webhook, htr]

/-- Witness for C7 amended: payloads `{}` (no id, 400),
`{"response": "x"}` (extraction raises, 500) for src/app/main.py;
`{"foo": "x"}` (no id, 400) and `[1]` (extraction raises, 500) for
src/main.py. -/
theorem C7_amended_witness :
    AppMain.extract (.obj []) = .ok (.null, .null) ∧
    AppMain.extract (.obj [("response", .str "x")]) = .error () ∧
    (AppMain.webhook none none (.error "") (some (.obj [])) [] 0).status = 400 ∧
    (AppMain.webhook none none (.error "")
        (some (.obj [("response", .str "x")])) [] 0).status = 500 ∧
    (Main.webhook none none (some (.obj [("foo", .str "x")])) [] 0).status = 400 ∧
    (Main.webhook none none (some (.arr [.num 1])) [] 0).status = 500 := by
  have hnotobj : ∀ fs, Json.arr [.num 1] ≠ .obj fs := by
    intro fs h
    cases h
  obtain ⟨⟨a1, -⟩, ⟨a2, -⟩, ⟨a3, -⟩, ⟨a4, -⟩⟩ :=
    C7_amended (.obj []) (.obj [("response", .str "x")]) [("foo", .str "x")]
      (.arr [.num 1]) (.error "") [] [] [] [] 0 .null .null
      rfl rfl rfl rfl rfl rfl hnotobj
  exact ⟨rfl, rfl, a1, a2, a3, a4⟩

end DeepCredit
